import Mathlib

/-!
Verification of the pricing engine in `src/main.py` (function
`calculate_retail_book_price`).

The Python function works on exact decimal constants; we embed its
arithmetic over `ℚ`.  Python `raise ValueError(msg)` and the
`ZeroDivisionError` raised by `full_cost_total / quantity` when
`quantity == 0` are embedded as an `Except PriceError` result.
`round(x, 2)` is Python's round-half-to-even at two decimal places,
embedded as `round2`.
-/

/-- Failures the Python function can raise: `ValueError` with its
message string, and `ZeroDivisionError` from division by a zero
quantity. -/
inductive PriceError where
  | valueError (msg : String)
  | zeroDivisionError
  deriving DecidableEq, Repr

/-- `format_coefficients` from `src/main.py` lines 18-23: the
primary-format (phone model) coefficient table, embedded as the
lookup function of the Python dict (`some` on its four keys, `none`
off them). -/
def format_coefficients (code : String) : Option ℚ :=
  if code = "iPhone 15" then some 1.0
  else if code = "iPhone 15 Plus" then some 1.08
  else if code = "iPhone 15 Pro" then some 1.25
  else if code = "iPhone 15 Pro Max" then some 1.4
  else none

/-- `format_coefficients1` from `src/main.py` lines 28-33: the
secondary-format (memory size) coefficient table, embedded as the
lookup function of the Python dict. -/
def format_coefficients1 (code : String) : Option ℚ :=
  if code = "128 Gb" then some 1.0
  else if code = "256 Gb" then some 1.12
  else if code = "512 Gb" then some 1.28
  else if code = "1 Tb" then some 1.45
  else none

/-- The error message raised at `src/main.py` line 26 when
`format_code` is not a key of `format_coefficients`. -/
def format_code_error_msg : String :=
  "format_code must be \x27Default\x27, \x27Pro\x27 or \x27Max\x27"

/-- The error message raised at `src/main.py` line 36 when
`format_code1` is not a key of `format_coefficients1` (the closing
quote after `1 Tb` is missing in the source string too). -/
def format_code1_error_msg : String :=
  "format_code must be \x27128 Gb\x27, \x27256 Gb\x27 or \x27512 Gb\x27, \x271 Tb"

/-- `base_quantity` from `src/main.py` line 16. -/
def base_quantity : ℚ := 100

/-- The tiered materials discount selected at `src/main.py`
lines 55-63 (note the source bounds: `< 499` and `< 999`). -/
def materials_discount (quantity : ℤ) : ℚ :=
  if 100 ≤ quantity ∧ quantity < 499 then 0.9
  else if 500 ≤ quantity ∧ quantity < 999 then 0.85
  else if 1000 ≤ quantity then 0.8
  else 1.0

/-- `quantity_factor` from `src/main.py` line 40. -/
def quantity_factor (quantity : ℤ) : ℚ := (quantity : ℚ) / base_quantity

/-- `materials_cost` from `src/main.py` lines 65-71. -/
def materials_cost (quantity : ℤ) (format_factor pages_factor : ℚ) : ℚ :=
  2100000 * quantity_factor quantity * format_factor * pages_factor *
    materials_discount quantity

/-- `labor_cost` from `src/main.py` line 73. -/
def labor_cost (quantity : ℤ) : ℚ := 1200000 * quantity_factor quantity

/-- `amortization_cost` from `src/main.py` line 74. -/
def amortization_cost (quantity : ℤ) : ℚ := 300000 * quantity_factor quantity

/-- `base_cost_total` from `src/main.py` lines 78-82. -/
def base_cost_total (quantity : ℤ) (format_factor pages_factor : ℚ) : ℚ :=
  materials_cost quantity format_factor pages_factor +
    labor_cost quantity + amortization_cost quantity

/-- `overhead_total` from `src/main.py` lines 86-93 (production 20%
plus administrative 15% of the base cost total). -/
def overhead_total (quantity : ℤ) (format_factor pages_factor : ℚ) : ℚ :=
  base_cost_total quantity format_factor pages_factor * 20 / 100 +
    base_cost_total quantity format_factor pages_factor * 15 / 100

/-- `full_cost_total` from `src/main.py` line 97. -/
def full_cost_total (quantity : ℤ) (format_factor pages_factor : ℚ) : ℚ :=
  base_cost_total quantity format_factor pages_factor +
    overhead_total quantity format_factor pages_factor

/-- `full_cost_per_unit` from `src/main.py` line 98. -/
def full_cost_per_unit (quantity : ℤ) (format_factor pages_factor : ℚ) : ℚ :=
  full_cost_total quantity format_factor pages_factor / (quantity : ℚ)

/-- `wholesale_price_no_vat` from `src/main.py` lines 102-103
(unit cost plus the 20% publisher margin). -/
def wholesale_price_no_vat (quantity : ℤ) (format_factor pages_factor : ℚ) : ℚ :=
  full_cost_per_unit quantity format_factor pages_factor +
    full_cost_per_unit quantity format_factor pages_factor * 20 / 100

/-- `wholesale_price_with_vat` from `src/main.py` line 104. -/
def wholesale_price_with_vat (quantity : ℤ)
    (format_factor pages_factor vat_percent : ℚ) : ℚ :=
  wholesale_price_no_vat quantity format_factor pages_factor *
    (1 + vat_percent / 100)

/-- `retail_price` from `src/main.py` lines 106-107 (wholesale with
VAT plus the 1% retailer markup). -/
def retail_price (quantity : ℤ)
    (format_factor pages_factor vat_percent : ℚ) : ℚ :=
  wholesale_price_with_vat quantity format_factor pages_factor vat_percent +
    wholesale_price_with_vat quantity format_factor pages_factor vat_percent *
      1 / 100

/-- `final_price` (before rounding) from `src/main.py` line 109. -/
def final_price (quantity : ℤ)
    (format_factor pages_factor vat_percent discount_percent : ℚ) : ℚ :=
  retail_price quantity format_factor pages_factor vat_percent *
    (1 - discount_percent / 100)

/-- Round-half-to-even to the nearest integer, as Python `round`
does. -/
def roundHalfEven (x : ℚ) : ℤ :=
  if x - ⌊x⌋ < 1/2 then ⌊x⌋
  else if x - ⌊x⌋ > 1/2 then ⌊x⌋ + 1
  else if Even ⌊x⌋ then ⌊x⌋ else ⌊x⌋ + 1

/-- Python `round(x, 2)`: round-half-to-even at two decimal places. -/
def round2 (x : ℚ) : ℚ := (roundHalfEven (100 * x) : ℚ) / 100

/-- `calculate_retail_book_price` from `src/main.py` lines 4-111:
validate the two format codes against their coefficient tables
(raising `ValueError` with the source's message strings), divide the
full cost by `quantity` (raising `ZeroDivisionError` when it is zero),
and return the final price rounded to two decimal places. -/
def calculate_retail_book_price (quantity : ℤ) (format_code : String)
    (vat_percent discount_percent : ℚ) (format_code1 : String) :
    Except PriceError ℚ :=
  match format_coefficients format_code with
  | none => .error (.valueError format_code_error_msg)
  | some format_factor =>
    match format_coefficients1 format_code1 with
    | none => .error (.valueError format_code1_error_msg)
    | some pages_factor =>
      if quantity = 0 then .error .zeroDivisionError
      else
        .ok (round2 (final_price quantity format_factor pages_factor
          vat_percent discount_percent))

/-- The eight-stage pipeline exactly as the spec's §4.1 algorithm
states it, for comparison with `calculate_retail_book_price`: scale
costs by `quantity / baseQuantity` and the two format factors
(materials additionally by the tier discount), sum the three
components, add production and admin overhead percentages of that
sum, divide by quantity, add publisher margin, multiply by
`1 + vatPercent/100`, add retailer markup, multiply by
`1 - discountPercent/100`, round to 2 decimal places. -/
def spec_pipeline_price (quantity : ℤ)
    (primaryFactor secondaryFactor vatPercent discountPercent : ℚ) : ℚ :=
  let quantityFactor : ℚ := (quantity : ℚ) / 100
  let materialsCost := 2100000 * quantityFactor * primaryFactor *
    secondaryFactor * materials_discount quantity
  let laborCost := 1200000 * quantityFactor
  let amortizationCost := 300000 * quantityFactor
  let baseCostTotal := materialsCost + laborCost + amortizationCost
  let overheadTotal := baseCostTotal * 20 / 100 + baseCostTotal * 15 / 100
  let fullCost := baseCostTotal + overheadTotal
  let unitCost := fullCost / (quantity : ℚ)
  let wholesaleNoVat := unitCost + unitCost * 20 / 100
  let wholesaleWithVat := wholesaleNoVat * (1 + vatPercent / 100)
  let retailPrice := wholesaleWithVat + wholesaleWithVat * 1 / 100
  round2 (retailPrice * (1 - discountPercent / 100))

section Helpers

/-- Every coefficient in the primary-format table is positive. -/
lemma format_coefficients_pos {c : String} {f : ℚ}
    (h : format_coefficients c = some f) : 0 < f := by
  unfold format_coefficients at h
  split_ifs at h <;> (simp only [Option.some.injEq] at h; subst h; norm_num)

/-- Every coefficient in the secondary-format table is positive. -/
lemma format_coefficients1_pos {c : String} {f : ℚ}
    (h : format_coefficients1 c = some f) : 0 < f := by
  unfold format_coefficients1 at h
  split_ifs at h <;> (simp only [Option.some.injEq] at h; subst h; norm_num)

/-- The tier discount factor is always positive. -/
lemma materials_discount_pos (q : ℤ) : 0 < materials_discount q := by
  unfold materials_discount
  split_ifs <;> norm_num

/-- On recognized codes and a nonzero quantity the function returns
the rounded final price. -/
lemma calculate_eq_ok {q : ℤ} (hq : q ≠ 0) {c c1 : String} {f f1 : ℚ}
    (h : format_coefficients c = some f)
    (h1 : format_coefficients1 c1 = some f1) (v d : ℚ) :
    calculate_retail_book_price q c v d c1 =
      .ok (round2 (final_price q f f1 v d)) := by
  unfold calculate_retail_book_price
  rw [h, h1]
  dsimp only
  rw [if_neg hq]

/-- Closed form of the unrounded final price. -/
lemma final_price_formula (q : ℤ) (f f1 v d : ℚ) :
    final_price q f f1 v d =
      (2100000 * ((q : ℚ) / 100) * f * f1 * materials_discount q +
          1200000 * ((q : ℚ) / 100) + 300000 * ((q : ℚ) / 100)) *
        (135 / 100) / (q : ℚ) * (120 / 100) * (1 + v / 100) *
        (101 / 100) * (1 - d / 100) := by
  unfold final_price retail_price wholesale_price_with_vat
    wholesale_price_no_vat full_cost_per_unit full_cost_total
    overhead_total base_cost_total materials_cost labor_cost
    amortization_cost quantity_factor base_quantity
  ring

/-- Evaluation rule for `roundHalfEven` strictly below the half. -/
lemma roundHalfEven_eq_down (x : ℚ) (n : ℤ) (h1 : (n : ℚ) ≤ x)
    (h2 : x < (n : ℚ) + 1 / 2) : roundHalfEven x = n := by
  have hf : ⌊x⌋ = n := Int.floor_eq_iff.mpr ⟨h1, by linarith⟩
  simp only [roundHalfEven, hf]
  rw [if_pos (by linarith)]

/-- Evaluation rule for `roundHalfEven` strictly above the half. -/
lemma roundHalfEven_eq_up (x : ℚ) (n : ℤ) (h1 : (n : ℚ) + 1 / 2 < x)
    (h2 : x < (n : ℚ) + 1) : roundHalfEven x = n + 1 := by
  have hf : ⌊x⌋ = n := Int.floor_eq_iff.mpr ⟨by linarith, by linarith⟩
  simp only [roundHalfEven, hf]
  rw [if_neg (by linarith), if_pos (by linarith)]

/-- Round-half-to-even is monotone. -/
lemma roundHalfEven_mono {x y : ℚ} (h : x ≤ y) :
    roundHalfEven x ≤ roundHalfEven y := by
  have hf : ⌊x⌋ ≤ ⌊y⌋ := Int.floor_le_floor h
  have hx1 : (⌊x⌋ : ℚ) ≤ x := Int.floor_le x
  have hx2 : x < ⌊x⌋ + 1 := Int.lt_floor_add_one x
  have hy1 : (⌊y⌋ : ℚ) ≤ y := Int.floor_le y
  have hy2 : y < ⌊y⌋ + 1 := Int.lt_floor_add_one y
  rcases eq_or_lt_of_le hf with heq | hlt
  · unfold roundHalfEven
    rw [← heq] at hy1 hy2 ⊢
    split_ifs <;> first | omega | linarith
  · unfold roundHalfEven
    split_ifs <;> omega

/-- Round-half-to-even of a nonnegative number is nonnegative. -/
lemma roundHalfEven_nonneg {x : ℚ} (h : 0 ≤ x) : 0 ≤ roundHalfEven x := by
  have h0 : 0 ≤ ⌊x⌋ := Int.floor_nonneg.mpr h
  unfold roundHalfEven
  split_ifs <;> omega

/-- Two-decimal rounding is monotone. -/
lemma round2_mono {x y : ℚ} (h : x ≤ y) : round2 x ≤ round2 y := by
  unfold round2
  have hr : roundHalfEven (100 * x) ≤ roundHalfEven (100 * y) :=
    roundHalfEven_mono (by linarith)
  have hr' : ((roundHalfEven (100 * x) : ℤ) : ℚ) ≤
      ((roundHalfEven (100 * y) : ℤ) : ℚ) := by exact_mod_cast hr
  linarith

/-- Two-decimal rounding of a nonnegative number is nonnegative. -/
lemma round2_nonneg {x : ℚ} (h : 0 ≤ x) : 0 ≤ round2 x := by
  unfold round2
  have hr : (0 : ℤ) ≤ roundHalfEven (100 * x) :=
    roundHalfEven_nonneg (by linarith)
  have hr' : (0 : ℚ) ≤ ((roundHalfEven (100 * x) : ℤ) : ℚ) := by
    exact_mod_cast hr
  linarith

/-- The unrounded retail price is positive on positive quantity,
positive factors and nonnegative VAT. -/
lemma retail_price_pos {q : ℤ} (hq : 0 < q) {f f1 : ℚ} (hf : 0 < f)
    (hf1 : 0 < f1) {v : ℚ} (hv : 0 ≤ v) : 0 < retail_price q f f1 v := by
  have hqQ : (0 : ℚ) < (q : ℚ) := by exact_mod_cast hq
  have hqf : 0 < quantity_factor q := by
    unfold quantity_factor base_quantity
    positivity
  have hmat : 0 < materials_cost q f f1 := by
    unfold materials_cost
    exact mul_pos (mul_pos (mul_pos (mul_pos (by norm_num) hqf) hf) hf1)
      (materials_discount_pos q)
  have hlab : 0 < labor_cost q := by
    unfold labor_cost
    positivity
  have hamo : 0 < amortization_cost q := by
    unfold amortization_cost
    positivity
  have hbase : 0 < base_cost_total q f f1 := by
    unfold base_cost_total
    linarith
  have hover : 0 ≤ overhead_total q f f1 := by
    unfold overhead_total
    have h20 : 0 ≤ base_cost_total q f f1 * 20 / 100 := by
      apply div_nonneg _ (by norm_num)
      exact mul_nonneg hbase.le (by norm_num)
    have h15 : 0 ≤ base_cost_total q f f1 * 15 / 100 := by
      apply div_nonneg _ (by norm_num)
      exact mul_nonneg hbase.le (by norm_num)
    linarith
  have hfull : 0 < full_cost_total q f f1 := by
    unfold full_cost_total
    linarith
  have hunit : 0 < full_cost_per_unit q f f1 := by
    unfold full_cost_per_unit
    exact div_pos hfull hqQ
  have hprofit : 0 ≤ full_cost_per_unit q f f1 * 20 / 100 := by
    apply div_nonneg _ (by norm_num)
    exact mul_nonneg hunit.le (by norm_num)
  have hwnv : 0 < wholesale_price_no_vat q f f1 := by
    unfold wholesale_price_no_vat
    linarith
  have hwv : 0 < wholesale_price_with_vat q f f1 v := by
    unfold wholesale_price_with_vat
    exact mul_pos hwnv (by linarith)
  have hmarkup : 0 ≤ wholesale_price_with_vat q f f1 v * 1 / 100 := by
    apply div_nonneg _ (by norm_num)
    exact mul_nonneg hwv.le (by norm_num)
  unfold retail_price
  linarith

/-- The pre-VAT wholesale price is positive on positive quantity and
positive factors. -/
lemma wholesale_price_no_vat_pos {q : ℤ} (hq : 0 < q) {f f1 : ℚ}
    (hf : 0 < f) (hf1 : 0 < f1) : 0 < wholesale_price_no_vat q f f1 := by
  have hr := retail_price_pos hq hf hf1 (le_refl (0 : ℚ))
  by_contra hle
  push_neg at hle
  have hwv : wholesale_price_with_vat q f f1 0 ≤ 0 := by
    unfold wholesale_price_with_vat
    nlinarith
  unfold retail_price at hr
  nlinarith

end Helpers

/-- C1: the materials-discount tier at the boundary quantities.  The
code's bands are `[100, 499)`, `[500, 999)` and `[1000, ∞)`, so the
boundary quantities 499 and 999 fall through to the no-discount
branch (1.0) although they lie inside `[100, 999]`: the documented
half-open bands `[100, 500)` light and `[500, 1000)` medium are
violated at 499 and 999. -/
theorem materials_discount_boundary_values :
    materials_discount 100 = 0.9 ∧ materials_discount 499 = 1.0 ∧
    materials_discount 500 = 0.85 ∧ materials_discount 999 = 1.0 ∧
    materials_discount 1000 = 0.8 :=
  ⟨rfl, rfl, rfl, rfl, rfl⟩

/-- C2: on an unrecognized primary format the engine raises
`ValueError` whose message enumerates the codes `Default`, `Pro`,
`Max` — none of which is an accepted key of `format_coefficients`
(whose keys are the four iPhone codes); on an unrecognized secondary
format the message names the field `format_code` instead of
`format_code1`.  So the message does not enumerate the accepted
codes of the table. -/
theorem unrecognized_format_message :
    calculate_retail_book_price 100 "A4" 20 0 "128 Gb" =
      .error (.valueError
        "format_code must be \x27Default\x27, \x27Pro\x27 or \x27Max\x27") ∧
    format_coefficients "Default" = none ∧
    format_coefficients "Pro" = none ∧
    format_coefficients "Max" = none ∧
    format_coefficients "iPhone 15" = some 1.0 ∧
    format_coefficients "iPhone 15 Plus" = some 1.08 ∧
    format_coefficients "iPhone 15 Pro" = some 1.25 ∧
    format_coefficients "iPhone 15 Pro Max" = some 1.4 ∧
    calculate_retail_book_price 100 "iPhone 15" 20 0 "2 Tb" =
      .error (.valueError
        "format_code must be \x27128 Gb\x27, \x27256 Gb\x27 or \x27512 Gb\x27, \x271 Tb") :=
  ⟨rfl, rfl, rfl, rfl, rfl, rfl, rfl, rfl, rfl⟩

/-- C3: on any call with positive quantity and recognized format
codes the engine returns exactly the spec's eight-stage pipeline:
scale, sum, overhead, divide by quantity, margin, VAT, markup,
discount, round to two decimals. -/
theorem eight_stage_pipeline (q : ℤ) (hq : 0 < q) (c c1 : String)
    (f f1 : ℚ) (h : format_coefficients c = some f)
    (h1 : format_coefficients1 c1 = some f1) (v d : ℚ) :
    calculate_retail_book_price q c v d c1 =
      .ok (spec_pipeline_price q f f1 v d) := by
  rw [calculate_eq_ok hq.ne' h h1]
  simp only [spec_pipeline_price]
  congr 1

/-- Witness for C3 at quantity 100, iPhone 15 / 128 Gb, VAT 20%,
discount 10%. -/
theorem eight_stage_pipeline_witness :
    calculate_retail_book_price 100 "iPhone 15" 20 10 "128 Gb" =
      .ok (spec_pipeline_price 100 1.0 1.0 20 10) :=
  eight_stage_pipeline 100 (by norm_num) "iPhone 15" "128 Gb" 1.0 1.0
    rfl rfl 20 10

/-- C4: whenever either format code is outside its coefficient
table, the engine fails with the `ValueError` embedding of
`UnrecognizedFormatError` and never returns a number. -/
theorem format_closure (q : ℤ) (c c1 : String) (v d : ℚ)
    (h : format_coefficients c = none ∨ format_coefficients1 c1 = none) :
    (∃ msg, calculate_retail_book_price q c v d c1 =
      .error (.valueError msg)) ∧
    ∀ p : ℚ, calculate_retail_book_price q c v d c1 ≠ .ok p := by
  unfold calculate_retail_book_price
  rcases h with h | h
  · rw [h]
    exact ⟨⟨_, rfl⟩, fun _ hp => Except.noConfusion hp⟩
  · cases hc : format_coefficients c with
    | none =>
      exact ⟨⟨_, rfl⟩, fun _ hp => Except.noConfusion hp⟩
    | some f =>
      rw [h]
      exact ⟨⟨_, rfl⟩, fun _ hp => Except.noConfusion hp⟩

/-- Witness for C4 at the unrecognized primary code `A4`. -/
theorem format_closure_witness :
    (∃ msg, calculate_retail_book_price 1 "A4" 0 0 "128 Gb" =
      .error (.valueError msg)) ∧
    ∀ p : ℚ, calculate_retail_book_price 1 "A4" 0 0 "128 Gb" ≠ .ok p :=
  format_closure 1 "A4" "128 Gb" 0 0 (Or.inl rfl)

/-- C5: the engine divides by `quantity` with no positivity check:
with recognized codes, quantity 0 signals the ZeroDivisionError-class
failure, while any positive quantity produces a result with no
division error. -/
theorem division_by_quantity (q : ℤ) (hq : 0 < q) (c c1 : String)
    (f f1 : ℚ) (h : format_coefficients c = some f)
    (h1 : format_coefficients1 c1 = some f1) (v d : ℚ) :
    calculate_retail_book_price 0 c v d c1 = .error .zeroDivisionError ∧
    ∃ p : ℚ, calculate_retail_book_price q c v d c1 = .ok p := by
  constructor
  · unfold calculate_retail_book_price
    rw [h, h1]
    dsimp only
    rw [if_pos rfl]
  · exact ⟨_, calculate_eq_ok hq.ne' h h1 v d⟩

/-- Witness for C5 at quantity 100, iPhone 15 / 128 Gb. -/
theorem division_by_quantity_witness :
    calculate_retail_book_price 0 "iPhone 15" 20 0 "128 Gb" =
      .error .zeroDivisionError ∧
    ∃ p : ℚ, calculate_retail_book_price 100 "iPhone 15" 20 0 "128 Gb" =
      .ok p :=
  division_by_quantity 100 (by norm_num) "iPhone 15" "128 Gb" 1.0 1.0
    rfl rfl 20 0

/-- C6 counterexample: with every other input fixed (quantity 100,
iPhone 15 / 128 Gb, VAT 20%) the two distinct positive discount
rates 1e-9 % and 2e-9 % produce the SAME returned price, because the
final rounding to two decimals absorbs the difference — so the
returned price does not strictly decrease as the discount grows. -/
theorem discount_strict_decrease_fails :
    (0 : ℚ) < 1 / 1000000000 ∧
    (1 : ℚ) / 1000000000 < 2 / 1000000000 ∧
    calculate_retail_book_price 100 "iPhone 15" 20 (1 / 1000000000) "128 Gb" =
      calculate_retail_book_price 100 "iPhone 15" 20 (2 / 1000000000) "128 Gb" := by
  refine ⟨by norm_num, by norm_num, ?_⟩
  rw [calculate_eq_ok (by norm_num) (rfl : format_coefficients "iPhone 15" = some 1.0)
    (rfl : format_coefficients1 "128 Gb" = some 1.0)]
  rw [calculate_eq_ok (by norm_num) (rfl : format_coefficients "iPhone 15" = some 1.0)
    (rfl : format_coefficients1 "128 Gb" = some 1.0)]
  have e1 : roundHalfEven (100 * final_price 100 1.0 1.0 20 (1 / 1000000000)) =
      6656061 + 1 :=
    roundHalfEven_eq_up _ 6656061
      (by rw [final_price_formula]; norm_num [materials_discount])
      (by rw [final_price_formula]; norm_num [materials_discount])
  have e2 : roundHalfEven (100 * final_price 100 1.0 1.0 20 (2 / 1000000000)) =
      6656061 + 1 :=
    roundHalfEven_eq_up _ 6656061
      (by rw [final_price_formula]; norm_num [materials_discount])
      (by rw [final_price_formula]; norm_num [materials_discount])
  unfold round2
  rw [e1, e2]

/-- C6 (amended): holding all else fixed (quantity > 0, recognized
codes, VAT ≥ 0), increasing `discountPercent` strictly decreases the
UNROUNDED final price and never increases the returned rounded
price; increasing `vatPercent` strictly increases the wholesale
price. -/
theorem price_monotonicity (q : ℤ) (hq : 0 < q) (c c1 : String)
    (f f1 : ℚ) (h : format_coefficients c = some f)
    (h1 : format_coefficients1 c1 = some f1) (v : ℚ) (hv : 0 ≤ v)
    (d1 d2 : ℚ) (hd : d1 < d2) (v1 v2 : ℚ) (hvlt : v1 < v2) :
    final_price q f f1 v d2 < final_price q f f1 v d1 ∧
    calculate_retail_book_price q c v d1 c1 =
      .ok (round2 (final_price q f f1 v d1)) ∧
    calculate_retail_book_price q c v d2 c1 =
      .ok (round2 (final_price q f f1 v d2)) ∧
    round2 (final_price q f f1 v d2) ≤ round2 (final_price q f f1 v d1) ∧
    wholesale_price_with_vat q f f1 v1 < wholesale_price_with_vat q f f1 v2 := by
  have hf := format_coefficients_pos h
  have hf1 := format_coefficients1_pos h1
  have hr : 0 < retail_price q f f1 v := retail_price_pos hq hf hf1 hv
  have hdec : final_price q f f1 v d2 < final_price q f f1 v d1 := by
    unfold final_price
    exact mul_lt_mul_of_pos_left (by linarith) hr
  refine ⟨hdec, calculate_eq_ok hq.ne' h h1 v d1,
    calculate_eq_ok hq.ne' h h1 v d2, round2_mono hdec.le, ?_⟩
  have hwnv := wholesale_price_no_vat_pos hq hf hf1
  unfold wholesale_price_with_vat
  exact mul_lt_mul_of_pos_left (by linarith) hwnv

/-- Witness for C6 (amended) at quantity 100, iPhone 15 / 128 Gb,
VAT 20%, discounts 0% vs 50%, VATs 20% vs 30%. -/
theorem price_monotonicity_witness :
    final_price 100 1.0 1.0 20 50 < final_price 100 1.0 1.0 20 0 ∧
    calculate_retail_book_price 100 "iPhone 15" 20 0 "128 Gb" =
      .ok (round2 (final_price 100 1.0 1.0 20 0)) ∧
    calculate_retail_book_price 100 "iPhone 15" 20 50 "128 Gb" =
      .ok (round2 (final_price 100 1.0 1.0 20 50)) ∧
    round2 (final_price 100 1.0 1.0 20 50) ≤
      round2 (final_price 100 1.0 1.0 20 0) ∧
    wholesale_price_with_vat 100 1.0 1.0 20 <
      wholesale_price_with_vat 100 1.0 1.0 30 :=
  price_monotonicity 100 (by norm_num) "iPhone 15" "128 Gb" 1.0 1.0
    rfl rfl 20 (by norm_num) 0 50 (by norm_num) 20 30 (by norm_num)

/-- C7 counterexample: at discount 0% the engine returns 66560.62,
while the pre-discount retail price is 66560.616 — the final
rounding makes the result differ from the pre-discount retail price,
so the zero-discount identity does not hold EXACTLY. -/
theorem zero_discount_not_exact :
    calculate_retail_book_price 100 "iPhone 15" 20 0 "128 Gb" =
      .ok (66560.62 : ℚ) ∧
    retail_price 100 1.0 1.0 20 = 66560.616 ∧
    (66560.62 : ℚ) ≠ 66560.616 := by
  refine ⟨?_, ?_, by norm_num⟩
  · rw [calculate_eq_ok (by norm_num)
      (rfl : format_coefficients "iPhone 15" = some 1.0)
      (rfl : format_coefficients1 "128 Gb" = some 1.0)]
    have e : roundHalfEven (100 * final_price 100 1.0 1.0 20 0) =
        6656061 + 1 :=
      roundHalfEven_eq_up _ 6656061
        (by rw [final_price_formula]; norm_num [materials_discount])
        (by rw [final_price_formula]; norm_num [materials_discount])
    unfold round2
    rw [e]
    norm_num
  · have hr : retail_price 100 1.0 1.0 20 = final_price 100 1.0 1.0 20 0 := by
      unfold final_price
      ring
    rw [hr, final_price_formula]
    norm_num [materials_discount]

/-- C7 (amended): at discount 0% the engine returns the pre-discount
retail price ROUNDED to two decimal places (the discount stage itself
is the identity at 0%). -/
theorem zero_discount_identity (q : ℤ) (hq : 0 < q) (c c1 : String)
    (f f1 : ℚ) (h : format_coefficients c = some f)
    (h1 : format_coefficients1 c1 = some f1) (v : ℚ) :
    calculate_retail_book_price q c v 0 c1 =
      .ok (round2 (retail_price q f f1 v)) := by
  have hid : final_price q f f1 v 0 = retail_price q f f1 v := by
    unfold final_price
    ring
  rw [calculate_eq_ok hq.ne' h h1, hid]

/-- Witness for C7 (amended) at quantity 100, iPhone 15 / 128 Gb,
VAT 20%. -/
theorem zero_discount_identity_witness :
    calculate_retail_book_price 100 "iPhone 15" 20 0 "128 Gb" =
      .ok (round2 (retail_price 100 1.0 1.0 20)) :=
  zero_discount_identity 100 (by norm_num) "iPhone 15" "128 Gb" 1.0 1.0
    rfl rfl 20

/-- C8: the spec's scenario — quantity 100, factors 1.0, VAT 20%,
discount 0% — returns the deterministic positive price 66560.62, and
the same call with discount 50% returns exactly half of it. -/
theorem scenario_deterministic_half :
    calculate_retail_book_price 100 "iPhone 15" 20 0 "128 Gb" =
      .ok (66560.62 : ℚ) ∧
    (0 : ℚ) < 66560.62 ∧
    calculate_retail_book_price 100 "iPhone 15" 20 50 "128 Gb" =
      .ok ((66560.62 : ℚ) / 2) := by
  refine ⟨?_, by norm_num, ?_⟩
  · rw [calculate_eq_ok (by norm_num)
      (rfl : format_coefficients "iPhone 15" = some 1.0)
      (rfl : format_coefficients1 "128 Gb" = some 1.0)]
    have e : roundHalfEven (100 * final_price 100 1.0 1.0 20 0) =
        6656061 + 1 :=
      roundHalfEven_eq_up _ 6656061
        (by rw [final_price_formula]; norm_num [materials_discount])
        (by rw [final_price_formula]; norm_num [materials_discount])
    unfold round2
    rw [e]
    norm_num
  · rw [calculate_eq_ok (by norm_num)
      (rfl : format_coefficients "iPhone 15" = some 1.0)
      (rfl : format_coefficients1 "128 Gb" = some 1.0)]
    have e : roundHalfEven (100 * final_price 100 1.0 1.0 20 50) =
        3328030 + 1 :=
      roundHalfEven_eq_up _ 3328030
        (by rw [final_price_formula]; norm_num [materials_discount])
        (by rw [final_price_formula]; norm_num [materials_discount])
    unfold round2
    rw [e]
    norm_num

/-- C9: on quantity > 0, recognized codes, VAT ≥ 0 and discount in
[0, 100], the engine returns a single non-negative price that is an
integer number of hundredths (i.e. rounded to two decimal places). -/
theorem result_nonneg_two_decimals (q : ℤ) (hq : 0 < q) (c c1 : String)
    (f f1 : ℚ) (h : format_coefficients c = some f)
    (h1 : format_coefficients1 c1 = some f1) (v d : ℚ) (hv : 0 ≤ v)
    (hd0 : 0 ≤ d) (hd1 : d ≤ 100) :
    ∃ p : ℚ, calculate_retail_book_price q c v d c1 = .ok p ∧ 0 ≤ p ∧
      ∃ n : ℤ, p = (n : ℚ) / 100 := by
  have hf := format_coefficients_pos h
  have hf1 := format_coefficients1_pos h1
  refine ⟨round2 (final_price q f f1 v d), calculate_eq_ok hq.ne' h h1 v d,
    ?_, roundHalfEven (100 * final_price q f f1 v d), rfl⟩
  apply round2_nonneg
  unfold final_price
  exact mul_nonneg (retail_price_pos hq hf hf1 hv).le (by linarith)

/-- Witness for C9 at quantity 250, iPhone 15 Pro / 512 Gb, VAT 20%,
discount 30%. -/
theorem result_nonneg_two_decimals_witness :
    ∃ p : ℚ, calculate_retail_book_price 250 "iPhone 15 Pro" 20 30 "512 Gb" =
      .ok p ∧ 0 ≤ p ∧ ∃ n : ℤ, p = (n : ℚ) / 100 :=
  result_nonneg_two_decimals 250 (by norm_num) "iPhone 15 Pro" "512 Gb"
    1.25 1.28 rfl rfl 20 30 (by norm_num) (by norm_num) (by norm_num)

/-- C10: two positive quantities that select the same materials
discount tier yield the same returned price with all other inputs
identical — the quantity factor scales every cost component linearly
and is cancelled by the division by quantity. -/
theorem same_tier_same_price (q1 q2 : ℤ) (hq1 : 0 < q1) (hq2 : 0 < q2)
    (htier : materials_discount q1 = materials_discount q2)
    (c c1 : String) (v d : ℚ) :
    calculate_retail_book_price q1 c v d c1 =
      calculate_retail_book_price q2 c v d c1 := by
  unfold calculate_retail_book_price
  cases hc : format_coefficients c with
  | none => rfl
  | some f =>
    cases hc1 : format_coefficients1 c1 with
    | none => rfl
    | some f1 =>
      dsimp only
      rw [if_neg hq1.ne', if_neg hq2.ne']
      have hq1Q : ((q1 : ℤ) : ℚ) ≠ 0 := by exact_mod_cast hq1.ne'
      have hq2Q : ((q2 : ℤ) : ℚ) ≠ 0 := by exact_mod_cast hq2.ne'
      congr 1
      congr 1
      rw [final_price_formula q1 f f1 v d, final_price_formula q2 f f1 v d,
        htier]
      field_simp
      ring

/-- Witness for C10: quantities 100 and 200 select the same tier
(0.9) and return the same price. -/
theorem same_tier_same_price_witness :
    calculate_retail_book_price 100 "iPhone 15" 20 0 "128 Gb" =
      calculate_retail_book_price 200 "iPhone 15" 20 0 "128 Gb" :=
  same_tier_same_price 100 200 (by norm_num) (by norm_num) rfl
    "iPhone 15" "128 Gb" 20 0
